import Mathlib

set_option maxRecDepth 20000

namespace TherapeuticAgent

/-! Shallow embedding of the safety assessment core of
`therapeutic_agent` (`safety/validators.py` and `safety/engine.py`).
Confidences are modelled as exact rationals; Python `re` pattern
matching is modelled by a small backtracking regular-expression
matcher over the abstract syntax of the patterns that appear in the
source. -/

/-- `SafetyLevel` from `validators.py`: ordered severity tiers. -/
inductive SafetyLevel where
  | safe
  | caution
  | warning
  | critical
deriving DecidableEq, Repr

/-- `SafetyCategory` from `validators.py`. -/
inductive SafetyCategory where
  | crisis
  | self_harm
  | substance_abuse
  | inappropriate_request
  | medical_advice
  | personal_info
  | therapeutic_boundary
deriving DecidableEq, Repr

/-- Opaque session metadata bundle (`dict[str, Any]` in the source),
modelled as a key/value list; the engine only threads it through. -/
abbrev SessionMetadata := List (String × String)

/-- The context dictionary built by `validate_conversation_context`:
`{"conversation_length": ..., "session_metadata": ...}`. No validator
reads it; it is passed through unchanged. -/
structure Ctx where
  conversation_length : Nat
  session_metadata : Option SessionMetadata
deriving DecidableEq, Repr

/-- `SafetyResult` dataclass from `validators.py`. -/
structure SafetyResult where
  is_safe : Bool
  level : SafetyLevel
  category : Option SafetyCategory
  confidence : ℚ
  explanation : String
  suggested_response : Option String := none
deriving DecidableEq, Repr

/-! ## A small regular-expression engine

Abstract syntax for the constructs used by the patterns in
`validators.py`: literal characters, `.`, `\s`, `\w`, `\b`,
concatenation, alternation and Kleene star (`+` and `?` are derived).
Matching is by backtracking with a continuation; the word-boundary
assertion needs the previous character, which is threaded through.
A fuel parameter bounds Kleene-star unfoldings; each star iteration is
required to consume at least one character, so fuel `length + 1` is
always sufficient and the fuelled matcher decides the same language as
the regular expression. -/

inductive Rx where
  | eps
  | ch (c : Char)
  | any
  | ws
  | wd
  | bnd
  | seq (a b : Rx)
  | alt (a b : Rx)
  | star (a : Rx)
deriving DecidableEq, Repr

/-- Python `\w`: word characters. -/
def isWordChar (c : Char) : Bool := c.isAlphanum || c == '_'

def isWordOpt : Option Char → Bool
  | none => false
  | some c => isWordChar c

/-- Backtracking matcher: `mch fuel r prev s k` holds when some prefix
of `s` matches `r` and the continuation `k` accepts the rest; `prev` is
the character just before `s` (for `\b`). The recursion is structural
on `fuel`, which decreases on every call; each Kleene-star iteration is
required to consume at least one character, so with enough fuel the
matcher decides exactly the language of `r`. -/
def mch : Nat → Rx → Option Char → List Char → (Option Char → List Char → Bool) → Bool
  | 0, _, _, _, _ => false
  | fuel + 1, r, prev, s, k =>
    match r with
    | .eps => k prev s
    | .ch c =>
        match s with
        | [] => false
        | x :: t => x == c && k (some x) t
    | .any =>
        match s with
        | [] => false
        | x :: t => x != '\n' && k (some x) t
    | .ws =>
        match s with
        | [] => false
        | x :: t => x.isWhitespace && k (some x) t
    | .wd =>
        match s with
        | [] => false
        | x :: t => isWordChar x && k (some x) t
    | .bnd => (isWordOpt prev != isWordOpt s.head?) && k prev s
    | .seq a b => mch fuel a prev s (fun p t => mch fuel b p t k)
    | .alt a b => mch fuel a prev s k || mch fuel b prev s k
    | .star a =>
        k prev s ||
          mch fuel a prev s (fun p t =>
            if t.length < s.length then mch fuel (.star a) p t k else false)

/-- Syntax-tree size, used to compute a sufficient fuel for `mch`. -/
def sizeRx : Rx → Nat
  | .seq a b => 1 + sizeRx a + sizeRx b
  | .alt a b => 1 + sizeRx a + sizeRx b
  | .star a => 1 + sizeRx a
  | _ => 1

/-- Fuel that is always sufficient: along any call chain each syntax
node is entered at most once per enclosing star iteration, and each
star iteration consumes at least one character, so the chain length is
at most `sizeRx r * (length + 2)`. -/
def rxFuel (r : Rx) (len : Nat) : Nat := sizeRx r * (len + 2) + 1

/-- Try to match `r` at every start position of the remaining input,
keeping track of the preceding character (Python `re.search`). -/
def searchAux (r : Rx) : Option Char → List Char → Bool
  | prev, [] => mch (rxFuel r 0) r prev [] (fun _ _ => true)
  | prev, c :: t =>
      mch (rxFuel r (t.length + 1)) r prev (c :: t) (fun _ _ => true) ||
        searchAux r (some c) t

/-- `str.lower()` (character-wise; the inputs of interest are ASCII). -/
def pyLower (s : String) : String := ⟨s.data.map Char.toLower⟩

/-- `str.strip()` on the underlying character list: drop leading and
trailing whitespace. -/
def stripList (l : List Char) : List Char :=
  ((l.dropWhile Char.isWhitespace).reverse.dropWhile Char.isWhitespace).reverse

/-- `sep.join(parts)` (Python string join). -/
def pyJoin (sep : String) : List String → String
  | [] => ""
  | x :: xs => xs.foldl (fun acc s => acc ++ sep ++ s) x

/-- `re.search` with `re.IGNORECASE`, modelled by searching the
lowercased content (the source patterns contain no uppercase). -/
def reSearch (r : Rx) (content : String) : Bool :=
  searchAux r none (pyLower content).data

/-- A sequence of literal characters. -/
def rs (s : String) : Rx := s.toList.foldr (fun c acc => Rx.seq (.ch c) acc) .eps

/-- Alternation of a non-empty list of alternatives. -/
def ralt (r : Rx) (l : List Rx) : Rx := l.foldl Rx.alt r

/-- Concatenation of a list of regexes. -/
def rcat (l : List Rx) : Rx := l.foldr Rx.seq .eps

/-- `?` (zero or one). -/
def ropt (a : Rx) : Rx := Rx.alt a .eps

/-- `+` (one or more). -/
def rplus (a : Rx) : Rx := Rx.seq a (.star a)

/-- `"needle" in hay` (Python substring containment) on lists. -/
def containsSubList (needle : List Char) : List Char → Bool
  | [] => needle.isPrefixOf ([] : List Char)
  | c :: t => needle.isPrefixOf (c :: t) || containsSubList needle t

/-- `needle in hay` for strings. -/
def containsSub (hay needle : String) : Bool :=
  containsSubList needle.data hay.data

/-! ## CrisisValidator (`validators.py`) -/

/-- Pattern `\b(?:kill(?:ing)?|hurt(?:ing)?|harm(?:ing)?)\s+(?:myself|me)\b`. -/
def crisisP1 : Rx :=
  rcat [.bnd,
    ralt (rcat [rs "kill", ropt (rs "ing")])
      [rcat [rs "hurt", ropt (rs "ing")], rcat [rs "harm", ropt (rs "ing")]],
    rplus .ws, ralt (rs "myself") [rs "me"], .bnd]

/-- Pattern `\b(?:suicide|suicidal|end(?:ing)?\s+(?:my\s+)?life)\b`. -/
def crisisP2 : Rx :=
  rcat [.bnd,
    ralt (rs "suicide")
      [rs "suicidal",
       rcat [rs "end", ropt (rs "ing"), rplus .ws,
         ropt (rcat [rs "my", rplus .ws]), rs "life"]],
    .bnd]

/-- Pattern `\b(?:end(?:ing)?\s+it(?:\s+all)?)\b`. -/
def crisisP3 : Rx :=
  rcat [.bnd, rs "end", ropt (rs "ing"), rplus .ws, rs "it",
    ropt (rcat [rplus .ws, rs "all"]), .bnd]

/-- Pattern `\b(?:want\s+to\s+die|wish\s+i\s+was\s+dead|better\s+off\s+dead)\b`. -/
def crisisP4 : Rx :=
  rcat [.bnd,
    ralt (rcat [rs "want", rplus .ws, rs "to", rplus .ws, rs "die"])
      [rcat [rs "wish", rplus .ws, rs "i", rplus .ws, rs "was", rplus .ws, rs "dead"],
       rcat [rs "better", rplus .ws, rs "off", rplus .ws, rs "dead"]],
    .bnd]

/-- Pattern `\b(?:overdose|pills?\s+to\s+(?:die|end))\b`. -/
def crisisP5 : Rx :=
  rcat [.bnd,
    ralt (rs "overdose")
      [rcat [rs "pill", ropt (rs "s"), rplus .ws, rs "to", rplus .ws,
        ralt (rs "die") [rs "end"]]],
    .bnd]

/-- Pattern `\b(?:plan\s+to\s+(?:kill|hurt|harm)|have\s+a\s+plan)\b`. -/
def crisisP6 : Rx :=
  rcat [.bnd,
    ralt (rcat [rs "plan", rplus .ws, rs "to", rplus .ws,
        ralt (rs "kill") [rs "hurt", rs "harm"]])
      [rcat [rs "have", rplus .ws, rs "a", rplus .ws, rs "plan"]],
    .bnd]

/-- The apostrophe character. -/
def apos : Char := Char.ofNat 39

/-- Pattern `\b(?:can\'?t\s+(?:go\s+on|take\s+it|live)|no\s+point\s+in\s+living)\b`. -/
def crisisP7 : Rx :=
  rcat [.bnd,
    ralt (rcat [rs "can", ropt (.ch apos), rs "t", rplus .ws,
        ralt (rcat [rs "go", rplus .ws, rs "on"])
          [rcat [rs "take", rplus .ws, rs "it"], rs "live"]])
      [rcat [rs "no", rplus .ws, rs "point", rplus .ws, rs "in", rplus .ws, rs "living"]],
    .bnd]

/-- `CRISIS_PATTERNS`, in source order. -/
def crisisPatterns : List Rx :=
  [crisisP1, crisisP2, crisisP3, crisisP4, crisisP5, crisisP6, crisisP7]

/-- `CRISIS_KEYWORDS` (a Python set; only the count of members that
occur in the content matters, so a duplicate-free list is faithful). -/
def crisisKeywords : List String :=
  ["suicide", "suicidal", "kill myself", "end my life", "want to die",
   "overdose", "pills to die", "hurt myself", "harm myself", "cut myself"]

/-- Number of compiled patterns from `ps` whose `search` succeeds on the
content. -/
def countPatternMatches (ps : List Rx) (content : String) : Nat :=
  (ps.filter (fun p => reSearch p content)).length

def crisisPatternMatches (content : String) : Nat :=
  countPatternMatches crisisPatterns content

/-- `sum(1 for keyword in CRISIS_KEYWORDS if keyword in content_lower)`. -/
def crisisKeywordMatches (content : String) : Nat :=
  (crisisKeywords.filter (fun k => containsSub (pyLower content) k)).length

def crisisCriticalExplanation : String :=
  "Multiple crisis indicators detected requiring immediate intervention"

def crisisCriticalResponse : String :=
  "I'm very concerned about what you've shared. Your safety is the most important thing right now. Please reach out to a crisis hotline immediately: National Suicide Prevention Lifeline at 988. If you're in immediate danger, please call emergency services at 911."

def crisisWarningExplanation : String := "Potential crisis indicator detected"

def crisisWarningResponse : String :=
  "I'm concerned about what you've mentioned. It's important to talk to someone who can help. Consider contacting the National Suicide Prevention Lifeline at 988 for support."

/-- The verdict of the `total_indicators >= 2` branch of
`CrisisValidator.validate`. -/
def crisisCriticalVerdict (total_indicators : Nat) : SafetyResult :=
  { is_safe := false
    level := .critical
    category := some .crisis
    confidence := min 0.9 (0.4 + (total_indicators : ℚ) * 0.15)
    explanation := crisisCriticalExplanation
    suggested_response := some crisisCriticalResponse }

/-- The verdict of the `total_indicators == 1` branch. -/
def crisisWarningVerdict : SafetyResult :=
  { is_safe := false
    level := .warning
    category := some .crisis
    confidence := 0.7
    explanation := crisisWarningExplanation
    suggested_response := some crisisWarningResponse }

/-- The no-indicator verdict. -/
def crisisSafeVerdict : SafetyResult :=
  { is_safe := true
    level := .safe
    category := none
    confidence := 0.8
    explanation := "No crisis indicators detected" }

/-- `CrisisValidator.validate`. -/
def crisisValidate (content : String) (_ctx : Option Ctx) : SafetyResult :=
  let total_indicators := crisisPatternMatches content + crisisKeywordMatches content
  if 2 ≤ total_indicators then crisisCriticalVerdict total_indicators
  else if total_indicators = 1 then crisisWarningVerdict
  else crisisSafeVerdict

/-! ## SelfHarmValidator (`validators.py`) -/

/-- Pattern `\b(?:cut(?:ting)?|scratch(?:ing)?|burn(?:ing)?)\s+(?:myself|me|my\s+\w+)\b`. -/
def selfHarmP1 : Rx :=
  rcat [.bnd,
    ralt (rcat [rs "cut", ropt (rs "ting")])
      [rcat [rs "scratch", ropt (rs "ing")], rcat [rs "burn", ropt (rs "ing")]],
    rplus .ws,
    ralt (rs "myself") [rs "me", rcat [rs "my", rplus .ws, rplus .wd]],
    .bnd]

/-- Pattern `\b(?:razor|blade|knife)\s+(?:on|to)\s+(?:myself|my\s+\w+)\b`. -/
def selfHarmP2 : Rx :=
  rcat [.bnd, ralt (rs "razor") [rs "blade", rs "knife"], rplus .ws,
    ralt (rs "on") [rs "to"], rplus .ws,
    ralt (rs "myself") [rcat [rs "my", rplus .ws, rplus .wd]], .bnd]

/-- Pattern `\b(?:self[-\s]?harm|self[-\s]?injur)` (no trailing `\b`). -/
def selfHarmP3 : Rx :=
  rcat [.bnd,
    ralt (rcat [rs "self", ropt (ralt (.ch '-') [.ws]), rs "harm"])
      [rcat [rs "self", ropt (ralt (.ch '-') [.ws]), rs "injur"]]]

/-- Pattern `\b(?:hurt\s+myself|inflict\s+pain)\b`. -/
def selfHarmP4 : Rx :=
  rcat [.bnd,
    ralt (rcat [rs "hurt", rplus .ws, rs "myself"])
      [rcat [rs "inflict", rplus .ws, rs "pain"]],
    .bnd]

def selfHarmPatterns : List Rx := [selfHarmP1, selfHarmP2, selfHarmP3, selfHarmP4]

/-- `accidental_keywords` in `SelfHarmValidator.validate`. -/
def accidentalKeywords : List String :=
  ["accidentally", "accident", "cooking", "shaving", "working"]

def selfHarmResponse : String :=
  "I'm concerned about the self-harm behaviors you've mentioned. These feelings are valid, but there are healthier ways to cope. Please consider reaching out to a mental health professional or crisis line for support."

/-- The unsafe verdict of `SelfHarmValidator.validate`. -/
def selfHarmUnsafeVerdict : SafetyResult :=
  { is_safe := false
    level := .warning
    category := some .self_harm
    confidence := 0.8
    explanation := "Self-harm behavior indicators detected"
    suggested_response := some selfHarmResponse }

/-- The safe verdict of `SelfHarmValidator.validate`. -/
def selfHarmSafeVerdict : SafetyResult :=
  { is_safe := true
    level := .safe
    category := none
    confidence := 0.9
    explanation := "No self-harm indicators detected" }

/-- `SelfHarmValidator.validate`. -/
def selfHarmValidate (content : String) (_ctx : Option Ctx) : SafetyResult :=
  let is_accidental := accidentalKeywords.any (fun k => containsSub (pyLower content) k)
  let numMatches := countPatternMatches selfHarmPatterns content
  if 1 ≤ numMatches ∧ ¬ is_accidental then selfHarmUnsafeVerdict
  else selfHarmSafeVerdict

/-! ## MedicalAdviceValidator (`validators.py`) -/

/-- Pattern
`\b(?:diagnose|diagnosis|what(?:\s+do\s+i|\'s\s+wrong))\b.*\b(?:symptoms?|condition|disease|disorder)\b`. -/
def medicalP1 : Rx :=
  rcat [.bnd,
    ralt (rs "diagnose")
      [rs "diagnosis",
       rcat [rs "what",
         ralt (rcat [rplus .ws, rs "do", rplus .ws, rs "i"])
           [rcat [.ch apos, rs "s", rplus .ws, rs "wrong"]]]],
    .bnd, .star .any, .bnd,
    ralt (rcat [rs "symptom", ropt (rs "s")]) [rs "condition", rs "disease", rs "disorder"],
    .bnd]

/-- Pattern `\b(?:should\s+i\s+take|recommend(?:ation)?|prescribe|medication|medicine|drug)\b`. -/
def medicalP2 : Rx :=
  rcat [.bnd,
    ralt (rcat [rs "should", rplus .ws, rs "i", rplus .ws, rs "take"])
      [rcat [rs "recommend", ropt (rs "ation")], rs "prescribe",
       rs "medication", rs "medicine", rs "drug"],
    .bnd]

/-- Pattern `\b(?:doctor|physician|medical|health)\s+(?:advice|opinion|recommendation)\b`. -/
def medicalP3 : Rx :=
  rcat [.bnd, ralt (rs "doctor") [rs "physician", rs "medical", rs "health"],
    rplus .ws, ralt (rs "advice") [rs "opinion", rs "recommendation"], .bnd]

/-- Pattern `\b(?:treatment\s+for|cure\s+for|how\s+to\s+treat)\b`. -/
def medicalP4 : Rx :=
  rcat [.bnd,
    ralt (rcat [rs "treatment", rplus .ws, rs "for"])
      [rcat [rs "cure", rplus .ws, rs "for"],
       rcat [rs "how", rplus .ws, rs "to", rplus .ws, rs "treat"]],
    .bnd]

def medicalPatterns : List Rx := [medicalP1, medicalP2, medicalP3, medicalP4]

def medicalResponse : String :=
  "I understand you're looking for guidance, but I can't provide medical advice or diagnoses. For health-related concerns, it's important to consult with qualified healthcare professionals who can properly assess your situation."

/-- The unsafe verdict of `MedicalAdviceValidator.validate`. -/
def medicalUnsafeVerdict : SafetyResult :=
  { is_safe := false
    level := .caution
    category := some .medical_advice
    confidence := 0.7
    explanation := "Request for medical advice detected"
    suggested_response := some medicalResponse }

/-- The safe verdict of `MedicalAdviceValidator.validate`. -/
def medicalSafeVerdict : SafetyResult :=
  { is_safe := true
    level := .safe
    category := none
    confidence := 0.8
    explanation := "No inappropriate medical advice requests detected" }

/-- `MedicalAdviceValidator.validate`. -/
def medicalValidate (content : String) (_ctx : Option Ctx) : SafetyResult :=
  let numMatches := countPatternMatches medicalPatterns content
  if 1 ≤ numMatches then medicalUnsafeVerdict
  else medicalSafeVerdict

/-! ## TherapeuticBoundaryValidator (`validators.py`) -/

/-- Pattern `\b(?:can\s+we\s+(?:meet|be\s+friends)|personal\s+(?:relationship|contact))\b`. -/
def boundaryP1 : Rx :=
  rcat [.bnd,
    ralt (rcat [rs "can", rplus .ws, rs "we", rplus .ws,
        ralt (rs "meet") [rcat [rs "be", rplus .ws, rs "friends"]]])
      [rcat [rs "personal", rplus .ws, ralt (rs "relationship") [rs "contact"]]],
    .bnd]

/-- Pattern `\b(?:outside\s+of\s+(?:therapy|session)|real\s+life|in\s+person)\b`. -/
def boundaryP2 : Rx :=
  rcat [.bnd,
    ralt (rcat [rs "outside", rplus .ws, rs "of", rplus .ws,
        ralt (rs "therapy") [rs "session"]])
      [rcat [rs "real", rplus .ws, rs "life"], rcat [rs "in", rplus .ws, rs "person"]],
    .bnd]

/-- Pattern `\b(?:phone\s+number|address|where\s+do\s+you\s+live|personal\s+info)\b`. -/
def boundaryP3 : Rx :=
  rcat [.bnd,
    ralt (rcat [rs "phone", rplus .ws, rs "number"])
      [rs "address",
       rcat [rs "where", rplus .ws, rs "do", rplus .ws, rs "you", rplus .ws, rs "live"],
       rcat [rs "personal", rplus .ws, rs "info"]],
    .bnd]

/-- Pattern `\b(?:date|romantic|sexual|intimate)\b.*\b(?:relationship|feelings)\b`. -/
def boundaryP4 : Rx :=
  rcat [.bnd, ralt (rs "date") [rs "romantic", rs "sexual", rs "intimate"],
    .bnd, .star .any, .bnd, ralt (rs "relationship") [rs "feelings"], .bnd]

def boundaryPatterns : List Rx := [boundaryP1, boundaryP2, boundaryP3, boundaryP4]

def boundaryResponse : String :=
  "I appreciate your trust in our therapeutic relationship. To maintain professional boundaries that best support your wellbeing, I need to keep our interactions focused on your therapeutic goals and within this context."

/-- The unsafe verdict of `TherapeuticBoundaryValidator.validate`. -/
def boundaryUnsafeVerdict : SafetyResult :=
  { is_safe := false
    level := .caution
    category := some .therapeutic_boundary
    confidence := 0.6
    explanation := "Therapeutic boundary concerns detected"
    suggested_response := some boundaryResponse }

/-- The safe verdict of `TherapeuticBoundaryValidator.validate`. -/
def boundarySafeVerdict : SafetyResult :=
  { is_safe := true
    level := .safe
    category := none
    confidence := 0.9
    explanation := "No boundary concerns detected" }

/-- `TherapeuticBoundaryValidator.validate`. -/
def boundaryValidate (content : String) (_ctx : Option Ctx) : SafetyResult :=
  let numMatches := countPatternMatches boundaryPatterns content
  if 1 ≤ numMatches then boundaryUnsafeVerdict
  else boundarySafeVerdict

/-! ## SafetyEngine (`engine.py`) -/

/-- `SafetyEngine._level_priority`: numeric priority (higher = more
critical); the `priority_map.get(level, 0)` default is unreachable as
all four levels are enumerated. -/
def levelPriority : SafetyLevel → Nat
  | .safe => 0
  | .caution => 1
  | .warning => 2
  | .critical => 3

/-- Python tuple comparison `(levelPriority, confidence)` used as the
`max` key in `_aggregate_results`: strict lexicographic less-than. -/
def KeyLt (a b : SafetyResult) : Prop :=
  levelPriority a.level < levelPriority b.level ∨
    (levelPriority a.level = levelPriority b.level ∧ a.confidence < b.confidence)

instance (a b : SafetyResult) : Decidable (KeyLt a b) := by
  unfold KeyLt; infer_instance

/-- Python `max(xs, key=...)` over a non-empty list: scan left to
right, replacing the champion only on a strictly greater key (so ties
keep the earliest element). -/
def mostCritical (hd : SafetyResult) (tl : List SafetyResult) : SafetyResult :=
  tl.foldl (fun best r => if KeyLt best r then r else best) hd

/-- Python `max` over a list of rationals; the `[]` value is arbitrary
(Python `max` raises on an empty sequence, and the engine never passes
one). -/
def listMaxQ : List ℚ → ℚ
  | [] => 0
  | x :: t => t.foldl max x

/-- `SafetyEngine._aggregate_results`. -/
def aggregate_results (results : List SafetyResult) : SafetyResult :=
  match results.filter (fun r => !r.is_safe) with
  | [] =>
      { is_safe := true
        level := .safe
        category := none
        confidence := listMaxQ (results.map SafetyResult.confidence)
        explanation := "Content passed all safety validations" }
  | u :: us =>
      let most_critical := mostCritical u us
      let matching_results :=
        (u :: us).filter (fun r => decide (r.category = most_critical.category))
      let avg_confidence :=
        if matching_results.length ≠ 0 then
          (matching_results.map SafetyResult.confidence).sum / (matching_results.length : ℚ)
        else most_critical.confidence
      let confidence_boost := min 0.15 (0.05 * (((u :: us).length - 1 : ℕ) : ℚ))
      let aggregated_confidence := min 0.95 (avg_confidence + confidence_boost)
      let explanations := ((u :: us).map SafetyResult.explanation).filter (fun e => e != "")
      { is_safe := false
        level := most_critical.level
        category := most_critical.category
        confidence := aggregated_confidence
        explanation := pyJoin "; " (explanations.take 3)
        suggested_response := most_critical.suggested_response }

/-- The engine's registered validators, in registration order
(`SafetyEngine.__init__`). -/
def validators : List (String → Option Ctx → SafetyResult) :=
  [crisisValidate, selfHarmValidate, medicalValidate, boundaryValidate]

/-- The short-circuit verdict for empty content. -/
def emptyContentVerdict : SafetyResult :=
  { is_safe := true
    level := .safe
    category := none
    confidence := 1.0
    explanation := "Empty content is safe" }

/-- The fail-closed fallback when no validator succeeded. -/
def fallbackVerdict : SafetyResult :=
  { is_safe := false
    level := .warning
    category := none
    confidence := 0.1
    explanation := "Safety validation failed - unable to assess content" }

/-- `SafetyEngine.validate_content` given the per-validator outcomes of
`asyncio.gather(..., return_exceptions=True)`: `none` models a
validator that raised (its result is dropped from the pool), `some r`
a validator that returned `r`. -/
def validate_content_outcomes (content : String)
    (outcomes : List (Option SafetyResult)) : SafetyResult :=
  if stripList content.data = [] then emptyContentVerdict
  else
    match outcomes.filterMap id with
    | [] => fallbackVerdict
    | v :: vs => aggregate_results (v :: vs)

/-- `SafetyEngine.validate_content` on the run in which every validator
returns normally (the validators are pure pattern matchers and raise no
exceptions). -/
def validate_content (content : String) (ctx : Option Ctx) : SafetyResult :=
  validate_content_outcomes content (validators.map (fun v => some (v content ctx)))

/-- One conversation turn (`{"role": ..., "content": ...}`). -/
structure Msg where
  role : String
  content : String
deriving DecidableEq, Repr

/-- The verdict for an empty conversation history. -/
def noHistoryVerdict : SafetyResult :=
  { is_safe := true
    level := .safe
    category := none
    confidence := 1.0
    explanation := "No conversation history to validate" }

/-- `SafetyEngine.validate_conversation_context`. -/
def validate_conversation_context (messages : List Msg)
    (session_metadata : Option SessionMetadata) : SafetyResult :=
  match messages with
  | [] => noHistoryVerdict
  | _ :: _ =>
      let combined_content := pyJoin " "
        (((messages.drop (messages.length - 10)).filter
            (fun m => m.role == "user")).map Msg.content)
      validate_content combined_content
        (some { conversation_length := messages.length
                session_metadata := session_metadata })

/-- Stated from the spec (§4.3), for the refinement claim: the contents
of the human-authored (`role = user`) turns among the last 10 turns,
concatenated in original order with a single space separator. -/
def specUserWindowJoin (turns : List Msg) : String :=
  pyJoin " "
    (((turns.drop (turns.length - 10)).filter (fun t => t.role == "user")).map Msg.content)

/-! ## Helper lemmas -/

theorem keyLt_irrefl (a : SafetyResult) : ¬ KeyLt a a := by
  rintro (h | ⟨-, h⟩) <;> exact lt_irrefl _ h

theorem keyLt_trans {a b c : SafetyResult} (h1 : KeyLt a b) (h2 : KeyLt b c) :
    KeyLt a c := by
  rcases h1 with h1 | ⟨e1, l1⟩ <;> rcases h2 with h2 | ⟨e2, l2⟩
  · exact Or.inl (h1.trans h2)
  · exact Or.inl (lt_of_lt_of_eq h1 e2)
  · exact Or.inl (lt_of_eq_of_lt e1 h2)
  · exact Or.inr ⟨e1.trans e2, l1.trans l2⟩

theorem keyLt_of_keyLt_of_not_keyLt {a b c : SafetyResult}
    (h1 : KeyLt a b) (h2 : ¬ KeyLt c b) : KeyLt a c := by
  unfold KeyLt at *
  push_neg at h2
  obtain ⟨h2a, h2b⟩ := h2
  rcases h1 with h1 | ⟨e1, l1⟩
  · exact Or.inl (lt_of_lt_of_le h1 h2a)
  · rcases lt_or_eq_of_le h2a with h | h
    · exact Or.inl (lt_of_eq_of_lt e1 h)
    · exact Or.inr ⟨e1.trans h, lt_of_lt_of_le l1 (h2b h.symm)⟩

theorem mostCritical_mem (tl : List SafetyResult) (hd : SafetyResult) :
    mostCritical hd tl ∈ hd :: tl := by
  induction tl generalizing hd with
  | nil => simp [mostCritical]
  | cons r rs ih =>
    simp only [mostCritical, List.foldl_cons]
    by_cases h : KeyLt hd r
    · rw [if_pos h]
      have hm := ih r
      simp only [mostCritical] at hm
      exact List.mem_cons_of_mem hd hm
    · rw [if_neg h]
      have hm := ih hd
      simp only [mostCritical] at hm
      rcases List.mem_cons.mp hm with h1 | h1
      · rw [h1]; exact List.mem_cons_self hd (r :: rs)
      · exact List.mem_cons_of_mem hd (List.mem_cons_of_mem r h1)

theorem mostCritical_not_lt (tl : List SafetyResult) (hd : SafetyResult) :
    ∀ x ∈ hd :: tl, ¬ KeyLt (mostCritical hd tl) x := by
  induction tl generalizing hd with
  | nil =>
    intro x hx
    have hx' : x = hd := by simpa using hx
    subst hx'
    simpa [mostCritical] using keyLt_irrefl x
  | cons r rs ih =>
    intro x hx
    simp only [mostCritical, List.foldl_cons]
    by_cases h : KeyLt hd r
    · rw [if_pos h]
      have hmax := ih r
      simp only [mostCritical] at hmax
      rcases List.mem_cons.mp hx with h1 | h1
      · subst h1
        intro contra
        exact hmax r (List.mem_cons_self r rs) (keyLt_trans contra h)
      · exact hmax x h1
    · rw [if_neg h]
      have hmax := ih hd
      simp only [mostCritical] at hmax
      rcases List.mem_cons.mp hx with h1 | h1
      · subst h1
        exact hmax x (List.mem_cons_self x rs)
      · rcases List.mem_cons.mp h1 with h2 | h2
        · subst h2
          intro contra
          exact hmax hd (List.mem_cons_self hd rs)
            (keyLt_of_keyLt_of_not_keyLt contra h)
        · exact hmax x (List.mem_cons_of_mem hd h2)

theorem foldl_max_le_self (l : List ℚ) (x : ℚ) : x ≤ l.foldl max x := by
  induction l generalizing x with
  | nil => simp
  | cons y ys ih => exact le_trans (le_max_left x y) (ih (max x y))

theorem foldl_max_le (l : List ℚ) (x : ℚ) : ∀ y ∈ l, y ≤ l.foldl max x := by
  induction l generalizing x with
  | nil => simp
  | cons z zs ih =>
    intro y hy
    rcases List.mem_cons.mp hy with h | h
    · subst h
      exact le_trans (le_max_right x y) (foldl_max_le_self zs (max x y))
    · exact ih (max x z) y h

theorem foldl_max_mem (l : List ℚ) (x : ℚ) : l.foldl max x ∈ x :: l := by
  induction l generalizing x with
  | nil => simp
  | cons y ys ih =>
    simp only [List.foldl_cons]
    rcases List.mem_cons.mp (ih (max x y)) with h | h
    · rw [h]
      rcases max_choice x y with hm | hm <;> rw [hm]
      · exact List.mem_cons_self _ _
      · exact List.mem_cons_of_mem _ (List.mem_cons_self _ _)
    · exact List.mem_cons_of_mem _ (List.mem_cons_of_mem _ h)

/-- Every unsafe verdict a registered validator can produce has a
non-empty explanation and a present category. -/
theorem validator_unsafe_shape (v : String → Option Ctx → SafetyResult)
    (hv : v ∈ validators) (c : String) (x : Option Ctx)
    (hu : (v c x).is_safe = false) :
    (v c x).explanation ≠ "" ∧ (v c x).category ≠ none := by
  simp only [validators, List.mem_cons, List.not_mem_nil, or_false] at hv
  rcases hv with rfl | rfl | rfl | rfl
  · unfold crisisValidate at hu ⊢
    dsimp only at hu ⊢
    split_ifs at hu ⊢
    · exact ⟨by simp only [crisisCriticalVerdict]; decide, by simp [crisisCriticalVerdict]⟩
    · exact ⟨by simp only [crisisWarningVerdict]; decide, by simp [crisisWarningVerdict]⟩
    · simp [crisisSafeVerdict] at hu
  · unfold selfHarmValidate at hu ⊢
    dsimp only at hu ⊢
    split_ifs at hu ⊢
    · exact ⟨by simp only [selfHarmUnsafeVerdict]; decide, by simp [selfHarmUnsafeVerdict]⟩
    · simp [selfHarmSafeVerdict] at hu
  · unfold medicalValidate at hu ⊢
    dsimp only at hu ⊢
    split_ifs at hu ⊢
    · exact ⟨by simp only [medicalUnsafeVerdict]; decide, by simp [medicalUnsafeVerdict]⟩
    · simp [medicalSafeVerdict] at hu
  · unfold boundaryValidate at hu ⊢
    dsimp only at hu ⊢
    split_ifs at hu ⊢
    · exact ⟨by simp only [boundaryUnsafeVerdict]; decide, by simp [boundaryUnsafeVerdict]⟩
    · simp [boundarySafeVerdict] at hu

/-- Every validator verdict with an absent category is safe. -/
theorem validator_safe_of_category_none (v : String → Option Ctx → SafetyResult)
    (hv : v ∈ validators) (c : String) (x : Option Ctx)
    (hcat : (v c x).category = none) : (v c x).is_safe = true := by
  by_cases hu : (v c x).is_safe = true
  · exact hu
  · exact absurd hcat (validator_unsafe_shape v hv c x (by simpa using hu)).2

/-! ## Claim theorems -/

/-- C2 counterexample: at the whitespace-only input `"   "` the engine's
short-circuit explanation is `"Empty content is safe"` (capital `E`), so
the claim's quoted explanation `"empty content is safe"` does not hold. -/
theorem empty_content_explanation_cex :
    (validate_content "   " none).explanation = "Empty content is safe" ∧
      ¬ (validate_content "   " none).explanation = "empty content is safe" := by
  constructor <;> decide

/-- C2 (amended): for every content string whose stripped form is empty,
`validate_content` short-circuits and returns the safe verdict with
level `Safe`, no category, confidence 1.0 and explanation
`"Empty content is safe"`, independently of the checker outcomes (no
checker is consulted). -/
theorem empty_content_short_circuit (content : String) (ctx : Option Ctx)
    (h : stripList content.data = []) :
    validate_content content ctx = emptyContentVerdict ∧
      ∀ outcomes, validate_content_outcomes content outcomes = emptyContentVerdict := by
  constructor
  · unfold validate_content validate_content_outcomes
    rw [if_pos h]
  · intro outcomes
    unfold validate_content_outcomes
    rw [if_pos h]

theorem empty_content_short_circuit_witness :
    validate_content "   " none = emptyContentVerdict ∧
      ∀ outcomes, validate_content_outcomes "   " outcomes = emptyContentVerdict :=
  empty_content_short_circuit "   " none (by decide)

/-- C3: for every content string with non-empty stripped form, if every
checker outcome is a failure (`none`), the engine still returns a
verdict, namely the fail-closed fallback: unsafe, level `Warning`,
category absent, confidence 0.1. -/
theorem total_failure_fallback (content : String) (outcomes : List (Option SafetyResult))
    (hc : stripList content.data ≠ []) (hfail : ∀ o ∈ outcomes, o = none) :
    validate_content_outcomes content outcomes = fallbackVerdict ∧
      (validate_content_outcomes content outcomes).is_safe = false ∧
      (validate_content_outcomes content outcomes).level = SafetyLevel.warning ∧
      (validate_content_outcomes content outcomes).category = none ∧
      (validate_content_outcomes content outcomes).confidence = 0.1 := by
  have h : validate_content_outcomes content outcomes = fallbackVerdict := by
    unfold validate_content_outcomes
    rw [if_neg hc]
    have hnil : outcomes.filterMap id = [] := by
      rw [List.filterMap_eq_nil_iff]
      simpa using hfail
    rw [hnil]
  rw [h]
  exact ⟨rfl, rfl, rfl, rfl, rfl⟩

theorem total_failure_fallback_witness :
    validate_content_outcomes "x" [none, none, none, none] = fallbackVerdict ∧
      (validate_content_outcomes "x" [none, none, none, none]).is_safe = false ∧
      (validate_content_outcomes "x" [none, none, none, none]).level = SafetyLevel.warning ∧
      (validate_content_outcomes "x" [none, none, none, none]).category = none ∧
      (validate_content_outcomes "x" [none, none, none, none]).confidence = 0.1 :=
  total_failure_fallback "x" [none, none, none, none] (by decide) (by decide)

/-- C7: for every non-empty pool in which every verdict is safe, the
aggregate is safe with level `Safe`, category absent, and a confidence
that is the maximum of the individual confidences (it is attained by
some verdict and bounds all of them). -/
theorem all_safe_aggregate (results : List SafetyResult) (hne : results ≠ [])
    (hsafe : ∀ r ∈ results, r.is_safe = true) :
    (aggregate_results results).is_safe = true ∧
      (aggregate_results results).level = SafetyLevel.safe ∧
      (aggregate_results results).category = none ∧
      (aggregate_results results).confidence ∈ results.map SafetyResult.confidence ∧
      ∀ r ∈ results, r.confidence ≤ (aggregate_results results).confidence := by
  have hf : results.filter (fun r => !r.is_safe) = [] := by
    rw [List.filter_eq_nil_iff]
    intro a ha
    simp [hsafe a ha]
  have hag : aggregate_results results =
      { is_safe := true
        level := .safe
        category := none
        confidence := listMaxQ (results.map SafetyResult.confidence)
        explanation := "Content passed all safety validations" } := by
    unfold aggregate_results
    rw [hf]
  rw [hag]
  obtain ⟨r0, rest, rfl⟩ := List.exists_cons_of_ne_nil hne
  refine ⟨rfl, rfl, rfl, ?_, ?_⟩
  · simpa [listMaxQ] using foldl_max_mem (rest.map SafetyResult.confidence) r0.confidence
  · intro r hr
    rcases List.mem_cons.mp hr with h | h
    · subst h
      simpa [listMaxQ] using foldl_max_le_self (rest.map SafetyResult.confidence) r.confidence
    · simpa [listMaxQ] using
        foldl_max_le (rest.map SafetyResult.confidence) r0.confidence r.confidence
          (List.mem_map_of_mem SafetyResult.confidence h)

theorem all_safe_aggregate_witness :
    (aggregate_results [crisisSafeVerdict, selfHarmSafeVerdict]).is_safe = true ∧
      (aggregate_results [crisisSafeVerdict, selfHarmSafeVerdict]).level = SafetyLevel.safe ∧
      (aggregate_results [crisisSafeVerdict, selfHarmSafeVerdict]).category = none ∧
      (aggregate_results [crisisSafeVerdict, selfHarmSafeVerdict]).confidence ∈
        [crisisSafeVerdict, selfHarmSafeVerdict].map SafetyResult.confidence ∧
      ∀ r ∈ [crisisSafeVerdict, selfHarmSafeVerdict],
        r.confidence ≤ (aggregate_results [crisisSafeVerdict, selfHarmSafeVerdict]).confidence :=
  all_safe_aggregate [crisisSafeVerdict, selfHarmSafeVerdict] (by decide) (by decide)

/-- C1: for every non-empty pool of checker verdicts containing at
least one unsafe verdict, the aggregate is unsafe; its level, category
and suggestedResponse come from the selected most-critical unsafe
verdict, which is maximal under the lexicographic
`(levelPriority, confidence)` comparison; its confidence is
`min(0.95, avg + min(0.15, 0.05 * (countUnsafe - 1)))` where `avg`
averages the confidences of the unsafe verdicts sharing the selected
category; and its explanation joins the first three unsafe verdicts'
explanations with `"; "` in pool order. -/
theorem unsafe_aggregation (results : List SafetyResult)
    (hpool : ∀ r ∈ results, ∃ v ∈ validators, ∃ c x, r = v c x)
    (hexu : ∃ r ∈ results, r.is_safe = false) :
    ∃ m ∈ results.filter (fun r => !r.is_safe),
      (∀ r ∈ results.filter (fun r => !r.is_safe), ¬ KeyLt m r) ∧
      (aggregate_results results).is_safe = false ∧
      (aggregate_results results).level = m.level ∧
      (aggregate_results results).category = m.category ∧
      (aggregate_results results).suggested_response = m.suggested_response ∧
      (aggregate_results results).confidence =
        min 0.95
          ((((results.filter (fun r => !r.is_safe)).filter
                (fun r => decide (r.category = m.category))).map SafetyResult.confidence).sum /
              ((((results.filter (fun r => !r.is_safe)).filter
                (fun r => decide (r.category = m.category))).length : ℚ)) +
            min 0.15 (0.05 * ((((results.filter (fun r => !r.is_safe)).length - 1 : ℕ)) : ℚ))) ∧
      (aggregate_results results).explanation =
        pyJoin "; " (((results.filter (fun r => !r.is_safe)).map SafetyResult.explanation).take 3) := by
  obtain ⟨r1, hr1, hr1u⟩ := hexu
  have hune : results.filter (fun r => !r.is_safe) ≠ [] := by
    intro h
    have hmem : r1 ∈ results.filter (fun r => !r.is_safe) :=
      List.mem_filter.mpr ⟨hr1, by simp [hr1u]⟩
    rw [h] at hmem
    exact List.not_mem_nil r1 hmem
  obtain ⟨u0, us, hu_eq⟩ := List.exists_cons_of_ne_nil hune
  have hmc_mem : mostCritical u0 us ∈ results.filter (fun r => !r.is_safe) := by
    rw [hu_eq]; exact mostCritical_mem us u0
  have hmatch_ne : ((u0 :: us).filter
      (fun r => decide (r.category = (mostCritical u0 us).category))).length ≠ 0 := by
    have hm : mostCritical u0 us ∈ (u0 :: us).filter
        (fun r => decide (r.category = (mostCritical u0 us).category)) :=
      List.mem_filter.mpr ⟨mostCritical_mem us u0, by simp⟩
    intro h
    rw [List.length_eq_zero] at h
    rw [h] at hm
    exact List.not_mem_nil _ hm
  have hexpl : ((u0 :: us).map SafetyResult.explanation).filter (fun e => e != "") =
      (u0 :: us).map SafetyResult.explanation := by
    rw [List.filter_eq_self]
    intro e he
    obtain ⟨r, hrmem, rfl⟩ := List.mem_map.mp he
    have hrfil : r ∈ results.filter (fun r => !r.is_safe) := by
      rw [hu_eq]; exact hrmem
    have hrres : r ∈ results := (List.mem_filter.mp hrfil).1
    have hru : r.is_safe = false := by
      simpa using (List.mem_filter.mp hrfil).2
    obtain ⟨v, hv, c, x, rfl⟩ := hpool r hrres
    simpa [bne_iff_ne] using (validator_unsafe_shape v hv c x hru).1
  have hag : aggregate_results results =
      { is_safe := false
        level := (mostCritical u0 us).level
        category := (mostCritical u0 us).category
        confidence := min 0.95
          ((if ((u0 :: us).filter
                (fun r => decide (r.category = (mostCritical u0 us).category))).length ≠ 0 then
              (((u0 :: us).filter
                  (fun r => decide (r.category = (mostCritical u0 us).category))).map
                    SafetyResult.confidence).sum /
                ((((u0 :: us).filter
                  (fun r => decide (r.category = (mostCritical u0 us).category))).length : ℚ))
            else (mostCritical u0 us).confidence) +
            min 0.15 (0.05 * ((((u0 :: us).length - 1 : ℕ)) : ℚ)))
        explanation := pyJoin "; "
          ((((u0 :: us).map SafetyResult.explanation).filter (fun e => e != "")).take 3)
        suggested_response := (mostCritical u0 us).suggested_response } := by
    unfold aggregate_results
    rw [hu_eq]
  refine ⟨mostCritical u0 us, hmc_mem, ?_, ?_, ?_, ?_, ?_, ?_, ?_⟩
  · rw [hu_eq]; exact mostCritical_not_lt us u0
  · rw [hag]
  · rw [hag]
  · rw [hag]
  · rw [hag]
  · rw [hag, hu_eq]
    rw [if_pos hmatch_ne]
  · rw [hag, hu_eq, hexpl]

theorem unsafe_aggregation_witness :
    ∃ m ∈ [medicalValidate "drug" none].filter (fun r => !r.is_safe),
      (∀ r ∈ [medicalValidate "drug" none].filter (fun r => !r.is_safe), ¬ KeyLt m r) ∧
      (aggregate_results [medicalValidate "drug" none]).is_safe = false ∧
      (aggregate_results [medicalValidate "drug" none]).level = m.level ∧
      (aggregate_results [medicalValidate "drug" none]).category = m.category ∧
      (aggregate_results [medicalValidate "drug" none]).suggested_response = m.suggested_response ∧
      (aggregate_results [medicalValidate "drug" none]).confidence =
        min 0.95
          ((((([medicalValidate "drug" none].filter (fun r => !r.is_safe)).filter
                (fun r => decide (r.category = m.category))).map SafetyResult.confidence).sum /
              (((([medicalValidate "drug" none].filter (fun r => !r.is_safe)).filter
                (fun r => decide (r.category = m.category))).length : ℚ))) +
            min 0.15 (0.05 * (((([medicalValidate "drug" none].filter (fun r => !r.is_safe)).length - 1 : ℕ)) : ℚ))) ∧
      (aggregate_results [medicalValidate "drug" none]).explanation =
        pyJoin "; " ((([medicalValidate "drug" none].filter (fun r => !r.is_safe)).map
          SafetyResult.explanation).take 3) :=
  unsafe_aggregation [medicalValidate "drug" none]
    (by
      intro r hr
      rw [List.mem_singleton] at hr
      subst hr
      exact ⟨medicalValidate, by simp [validators], "drug", none, rfl⟩)
    ⟨medicalValidate "drug" none, by simp, by decide⟩

/-- C9 counterexample: when every checker fails on non-empty content,
the engine returns the fallback verdict, whose category is absent while
it is unsafe — so "category absent implies safe" fails. -/
theorem category_none_unsafe_cex :
    (validate_content_outcomes "x" [none, none, none, none]).category = none ∧
      (validate_content_outcomes "x" [none, none, none, none]).is_safe = false := by
  constructor <;> decide

/-- C9 (amended): for every verdict returned by the engine on checker
outcomes, an absent category implies the verdict is safe, unless it is
the total-failure fallback verdict; and every individual checker
verdict with an absent category is safe. -/
theorem category_none_implies_safe_or_fallback
    (content : String) (ctx : Option Ctx) (outcomes : List (Option SafetyResult))
    (hout : ∀ o ∈ outcomes, o = none ∨ ∃ v ∈ validators, ∃ c x, o = some (v c x)) :
    ((validate_content_outcomes content outcomes).category = none →
      (validate_content_outcomes content outcomes).is_safe = true ∨
        validate_content_outcomes content outcomes = fallbackVerdict) ∧
    ∀ v ∈ validators, (v content ctx).category = none → (v content ctx).is_safe = true := by
  constructor
  · intro hcat
    unfold validate_content_outcomes at hcat ⊢
    by_cases hstrip : stripList content.data = []
    · rw [if_pos hstrip]
      left; rfl
    · rw [if_neg hstrip] at hcat ⊢
      rcases heq : outcomes.filterMap id with _ | ⟨v0, vs⟩
      · right; rfl
      · left
        show (aggregate_results (v0 :: vs)).is_safe = true
        rw [heq] at hcat
        replace hcat : (aggregate_results (v0 :: vs)).category = none := hcat
        rcases hueq : (v0 :: vs).filter (fun r => !r.is_safe) with _ | ⟨u0, us⟩
        · unfold aggregate_results
          rw [hueq]
        · exfalso
          unfold aggregate_results at hcat
          rw [hueq] at hcat
          dsimp only at hcat
          have hfil : mostCritical u0 us ∈ (v0 :: vs).filter (fun r => !r.is_safe) := by
            rw [hueq]; exact mostCritical_mem us u0
          have hin : mostCritical u0 us ∈ v0 :: vs := (List.mem_filter.mp hfil).1
          have hmcu : (mostCritical u0 us).is_safe = false := by
            simpa using (List.mem_filter.mp hfil).2
          have hin2 : mostCritical u0 us ∈ outcomes.filterMap id := by
            rw [heq]; exact hin
          obtain ⟨a, ha, hae⟩ := List.mem_filterMap.mp hin2
          rcases hout a ha with hnone | ⟨v, hv, c, x, hsome⟩
          · rw [hnone] at hae
            simp at hae
          · rw [hsome] at hae
            simp only [id] at hae
            have hme : mostCritical u0 us = v c x := by
              injection hae with h
              exact h.symm
            exact (validator_unsafe_shape v hv c x (by rw [← hme]; exact hmcu)).2
              (by rw [← hme]; exact hcat)
  · exact fun v hv hcat => validator_safe_of_category_none v hv content ctx hcat

theorem category_none_implies_safe_or_fallback_witness :
    ((validate_content_outcomes "x" [none, none, none, none]).category = none →
      (validate_content_outcomes "x" [none, none, none, none]).is_safe = true ∨
        validate_content_outcomes "x" [none, none, none, none] = fallbackVerdict) ∧
    ∀ v ∈ validators, (v "x" none).category = none → (v "x" none).is_safe = true :=
  category_none_implies_safe_or_fallback "x" none [none, none, none, none]
    (by
      intro o ho
      simp only [List.mem_cons, List.not_mem_nil, or_false] at ho
      rcases ho with rfl | rfl | rfl | rfl <;> exact Or.inl rfl)

/-- C4: for every content string, with `n` the number of crisis pattern
matches plus keyword matches: `n ≥ 2` yields the unsafe Critical/Crisis
verdict with confidence `min(0.9, 0.4 + 0.15 n)`, an explanation naming
multiple crisis indicators and a crisis-line (988) suggestedResponse;
`n = 1` yields the unsafe Warning/Crisis verdict with confidence 0.7;
`n = 0` yields the safe verdict with confidence 0.8. -/
theorem crisis_checker_cases (content : String) (ctx : Option Ctx) (n : ℕ)
    (hn : n = crisisPatternMatches content + crisisKeywordMatches content) :
    (2 ≤ n → crisisValidate content ctx = crisisCriticalVerdict n ∧
        (crisisValidate content ctx).confidence = min 0.9 (0.4 + (n : ℚ) * 0.15) ∧
        containsSub crisisCriticalExplanation "crisis indicators" = true ∧
        containsSub crisisCriticalResponse "988" = true) ∧
    (n = 1 → crisisValidate content ctx = crisisWarningVerdict ∧
        (crisisValidate content ctx).confidence = 0.7) ∧
    (n = 0 → crisisValidate content ctx = crisisSafeVerdict ∧
        (crisisValidate content ctx).confidence = 0.8) := by
  unfold crisisValidate
  dsimp only
  rw [← hn]
  refine ⟨?_, ?_, ?_⟩
  · intro h2
    rw [if_pos h2]
    exact ⟨rfl, rfl, by decide, by decide⟩
  · intro h1
    rw [if_neg (by omega), if_pos h1]
    exact ⟨rfl, rfl⟩
  · intro h0
    rw [if_neg (by omega), if_neg (by omega)]
    exact ⟨rfl, rfl⟩

theorem crisis_checker_cases_witness :
    crisisValidate "I cut myself" none = crisisWarningVerdict ∧
      (crisisValidate "I cut myself" none).confidence = 0.7 :=
  ((crisis_checker_cases "I cut myself" none 1 (by decide)).2.1) rfl

/-- C8: `validate_conversation_context` on an empty turn list returns
the safe no-history verdict with confidence 1.0; on a non-empty list it
returns exactly `validate_content` applied to the spec-described window
(user turns among the last 10, joined by single spaces, in order), with
a context carrying the conversation length and the caller metadata. -/
theorem conversation_assessment (msgs : List Msg) (meta : Option SessionMetadata) :
    (msgs = [] → validate_conversation_context msgs meta = noHistoryVerdict ∧
        noHistoryVerdict.is_safe = true ∧ noHistoryVerdict.confidence = 1.0) ∧
    (msgs ≠ [] → validate_conversation_context msgs meta =
        validate_content (specUserWindowJoin msgs)
          (some { conversation_length := msgs.length, session_metadata := meta })) := by
  constructor
  · rintro rfl
    exact ⟨rfl, rfl, rfl⟩
  · intro hne
    obtain ⟨m0, rest, rfl⟩ := List.exists_cons_of_ne_nil hne
    rfl

theorem conversation_assessment_witness :
    validate_conversation_context [Msg.mk "user" "hi"] none =
      validate_content (specUserWindowJoin [Msg.mk "user" "hi"])
        (some { conversation_length := [Msg.mk "user" "hi"].length
                session_metadata := none }) :=
  (conversation_assessment [Msg.mk "user" "hi"] none).2 (by simp)

/-- C10: for every non-empty turn list whose last 10 turns contain no
`role = user` turn, `validate_conversation_context` returns the
empty-content short-circuit verdict (safe, level `Safe`, category
absent, confidence 1.0, explanation `"Empty content is safe"`); no
checker output can influence it. -/
theorem no_user_turns_empty (msgs : List Msg) (meta : Option SessionMetadata)
    (hne : msgs ≠ [])
    (hnou : ∀ m ∈ msgs.drop (msgs.length - 10), m.role ≠ "user") :
    validate_conversation_context msgs meta = emptyContentVerdict := by
  obtain ⟨m0, rest, rfl⟩ := List.exists_cons_of_ne_nil hne
  unfold validate_conversation_context
  dsimp only
  have hfil : ((m0 :: rest).drop ((m0 :: rest).length - 10)).filter
      (fun m => m.role == "user") = [] := by
    rw [List.filter_eq_nil_iff]
    intro a ha
    simpa using hnou a ha
  rw [hfil]
  unfold validate_content validate_content_outcomes
  rw [if_pos (by decide)]

theorem no_user_turns_empty_witness :
    validate_conversation_context [Msg.mk "assistant" "hello"] none = emptyContentVerdict :=
  no_user_turns_empty [Msg.mk "assistant" "hello"] none (by simp) (by decide)

/-- C5 counterexample: on `"I accidentally cut myself while cooking"`
the engine's aggregate verdict is unsafe and its level is not `Safe`
(the crisis checker's `"cut myself"` keyword fires), contradicting the
claimed safe aggregate. -/
theorem accidental_cut_aggregate_cex :
    (validate_content "I accidentally cut myself while cooking" none).is_safe = false ∧
      (validate_content "I accidentally cut myself while cooking" none).level ≠
        SafetyLevel.safe := by
  constructor <;> decide

/-- C5 (amended): on `"I accidentally cut myself while cooking"` the
self-harm checker is suppressed by an accidental-context keyword and
returns its safe verdict, but the crisis checker's `"cut myself"`
keyword counts one indicator, so the aggregate verdict is unsafe with
level `Warning`, category `Crisis` and confidence 0.7. -/
theorem accidental_cut_aggregate :
    accidentalKeywords.any
        (fun k => containsSub (pyLower "I accidentally cut myself while cooking") k) = true ∧
      selfHarmValidate "I accidentally cut myself while cooking" none = selfHarmSafeVerdict ∧
      crisisKeywordMatches "I accidentally cut myself while cooking" = 1 ∧
      (validate_content "I accidentally cut myself while cooking" none).is_safe = false ∧
      (validate_content "I accidentally cut myself while cooking" none).level =
        SafetyLevel.warning ∧
      (validate_content "I accidentally cut myself while cooking" none).category =
        some SafetyCategory.crisis ∧
      (validate_content "I accidentally cut myself while cooking" none).confidence = 0.7 := by
  refine ⟨by decide, rfl, by decide, by decide, by decide, by decide, ?_⟩
  have hc : (validate_content "I accidentally cut myself while cooking" none).confidence =
      min 0.95 ((0.7 + 0) / ((1 : ℕ) : ℚ) + min 0.15 (0.05 * ((0 : ℕ) : ℚ))) := rfl
  rw [hc]
  push_cast
  norm_num [min_def]

/-- C6 counterexample: on `"I want to kill myself and end this pain"`
the aggregate confidence is 0.7 (two indicators give
`min(0.9, 0.4 + 0.3) = 0.7`, and no other checker fires, so there is no
boost), strictly below the claimed bound 0.85. -/
theorem crisis_scenario_confidence_cex :
    (validate_content "I want to kill myself and end this pain" none).confidence < 0.85 := by
  have hc : (validate_content "I want to kill myself and end this pain" none).confidence =
      min 0.95 ((min 0.9 (0.4 + ((2 : ℕ) : ℚ) * 0.15) + 0) / ((1 : ℕ) : ℚ) +
        min 0.15 (0.05 * ((0 : ℕ) : ℚ))) := rfl
  rw [hc]
  push_cast
  norm_num [min_def]

/-- C6 (amended): on `"I want to kill myself and end this pain"` the
crisis checker fires exactly 2 indicators and the aggregate verdict is
unsafe with level `Critical`, category `Crisis` and confidence 0.7. -/
theorem crisis_scenario_aggregate :
    crisisPatternMatches "I want to kill myself and end this pain" +
        crisisKeywordMatches "I want to kill myself and end this pain" = 2 ∧
      (validate_content "I want to kill myself and end this pain" none).is_safe = false ∧
      (validate_content "I want to kill myself and end this pain" none).level =
        SafetyLevel.critical ∧
      (validate_content "I want to kill myself and end this pain" none).category =
        some SafetyCategory.crisis ∧
      (validate_content "I want to kill myself and end this pain" none).confidence = 0.7 := by
  refine ⟨by decide, by decide, by decide, by decide, ?_⟩
  have hc : (validate_content "I want to kill myself and end this pain" none).confidence =
      min 0.95 ((min 0.9 (0.4 + ((2 : ℕ) : ℚ) * 0.15) + 0) / ((1 : ℕ) : ℚ) +
        min 0.15 (0.05 * ((0 : ℕ) : ℚ))) := rfl
  rw [hc]
  push_cast
  norm_num [min_def]

end TherapeuticAgent
